import Mathlib

/-!
Verification development for the validation toolkit in
`pyvista/core/validate/checkers.py`.

The Python checks are shallowly embedded: each `check_*` function becomes a
Lean function returning `Except PyErr Unit` (`.ok ()` models a silent return,
`.error` models a raised `TypeError`/`ValueError` with its message).  Numeric
scalar values are modelled by `ℚ` (the checks only use order, equality and
floor, which are exact on every value they are applied to; non-finite floats
are outside the model).  NumPy arrays are modelled by `NDArray`: a dtype tag,
a shape, and row-major data.  The dtype hierarchy and the class hierarchy of
Python/NumPy numeric types (`bool < int`, `np.float64 < float`,
`np.complex128 < complex`, the `numbers` ABC registrations, and the fact that
`np.bool_` is outside every numeric family) are encoded as explicit tables,
mirroring the host libraries the source treats as given.
-/

/-- A raised Python exception: the two failure kinds used by the checkers. -/
inductive PyErr where
  | typeError (msg : String)
  | valueError (msg : String)
deriving DecidableEq

instance {ε α : Type} [DecidableEq ε] [DecidableEq α] :
    DecidableEq (Except ε α) := fun a b =>
  match a, b with
  | .ok x, .ok y =>
      if h : x = y then .isTrue (h ▸ rfl) else .isFalse fun hh => h (Except.ok.inj hh)
  | .error x, .error y =>
      if h : x = y then .isTrue (h ▸ rfl) else .isFalse fun hh => h (Except.error.inj hh)
  | .ok _, .error _ => .isFalse fun hh => Except.noConfusion hh
  | .error _, .ok _ => .isFalse fun hh => Except.noConfusion hh

/-- True on a silent return (no exception). -/
def isOkE {α : Type} : Except PyErr α → Bool
  | .ok _ => true
  | .error _ => false

/-- True when the outcome is a raised TypeError. -/
def isTypeErr {α : Type} : Except PyErr α → Bool
  | .error (.typeError _) => true
  | _ => false

/-- Concrete NumPy dtypes appearing in the model. -/
inductive DType where
  | bool_ | uint8 | int32 | int64 | float32 | float64 | complex128
deriving DecidableEq

/-- The dtype's name as NumPy prints it. -/
def DType.dtypeName : DType → String
  | .bool_ => "bool"
  | .uint8 => "uint8"
  | .int32 => "int32"
  | .int64 => "int64"
  | .float32 => "float32"
  | .float64 => "float64"
  | .complex128 => "complex128"

/-- Abstract dtype families used as `base_dtype` arguments. -/
inductive NpBase where
  | npInteger | npFloating | npNumber
deriving DecidableEq

/-- `np.issubdtype` restricted to the dtypes and bases of the model:
integer dtypes are subtypes of `np.integer`, float dtypes of `np.floating`,
and all of those plus `complex128` of `np.number`; `np.bool_` is a subtype
of none of them. -/
def issubdtype : DType → NpBase → Bool
  | .uint8, .npInteger => true
  | .int32, .npInteger => true
  | .int64, .npInteger => true
  | .float32, .npFloating => true
  | .float64, .npFloating => true
  | .uint8, .npNumber => true
  | .int32, .npNumber => true
  | .int64, .npNumber => true
  | .float32, .npNumber => true
  | .float64, .npNumber => true
  | .complex128, .npNumber => true
  | _, _ => false

/-- How Python prints the base class in the error message. -/
def NpBase.clsRepr : NpBase → String
  | .npInteger => "<class 'numpy.integer'>"
  | .npFloating => "<class 'numpy.floating'>"
  | .npNumber => "<class 'numpy.number'>"

/-- Repr of a Python tuple of base classes, as in the multi-base message. -/
def npBaseListRepr (l : List NpBase) : String :=
  "(" ++ String.intercalate ", " (l.map NpBase.clsRepr) ++ ")"

/-- Repr of `base_dtype[0]` in the single-base message. -/
def npBaseListHead (l : List NpBase) : String :=
  (l.headD .npNumber).clsRepr

/-- `check_is_subdtype` (checkers.py lines 30-99), with the subject already
resolved to its dtype.  `base` models the `base_dtype` argument after the
normalisation `if not isinstance(base_dtype, (list, tuple)): base_dtype =
[base_dtype]`; success iff the dtype is a subtype of at least one entry. -/
def checkIsSubdtype (d : DType) (base : List NpBase) (name : String) :
    Except PyErr Unit :=
  if base.any (fun b => issubdtype d b) then .ok ()
  else if base.length = 1 then
    .error (.typeError
      (s!"{name} has incorrect dtype of '{d.dtypeName}'. " ++
        s!"The dtype must be a subtype of {npBaseListHead base}."))
  else
    .error (.typeError
      (s!"{name} has incorrect dtype of '{d.dtypeName}'. " ++
        "The dtype must be a subtype of at least one of \n" ++
        npBaseListRepr base ++ "."))

/-- An n-dimensional NumPy array: dtype tag, shape, row-major data.
Only real scalar values are representable (`ℚ`); the checks modelled here
use at most ordering, equality and floor of the elements. -/
structure NDArray where
  dtype : DType
  shape : List Nat
  data : List ℚ
deriving DecidableEq

/-- Number of dimensions (`arr.ndim`). -/
def NDArray.ndim (a : NDArray) : Nat := a.shape.length

/-- Number of elements (`arr.size`). -/
def NDArray.size (a : NDArray) : Nat := a.shape.prod

/-- `check_is_numeric` (lines 102-145): return early when the dtype is in the
fast-path list `[np.int32, np.int64, np.float32, np.float64, np.complex_]`,
otherwise run `check_is_subdtype(arr, np.number, name=name)` and re-raise a
TypeError failure as the simplified message. -/
def checkIsNumeric (a : NDArray) (name : String) : Except PyErr Unit :=
  if [DType.int32, .int64, .float32, .float64, .complex128].contains a.dtype
  then .ok ()
  else
    match checkIsSubdtype a.dtype [.npNumber] name with
    | .ok _ => .ok ()
    | .error _ => .error (.typeError s!"{name} must be numeric.")

/-- `check_is_real` (lines 148-197): fast path `[np.int32, np.int64,
np.float32, np.float64]`, otherwise `check_is_subdtype(arr, (np.floating,
np.integer), name=name)`, re-raised with the simplified message. -/
def checkIsReal (a : NDArray) (name : String) : Except PyErr Unit :=
  if [DType.int32, .int64, .float32, .float64].contains a.dtype
  then .ok ()
  else
    match checkIsSubdtype a.dtype [.npFloating, .npInteger] name with
    | .ok _ => .ok ()
    | .error _ => .error (.typeError s!"{name} must have real numbers.")

/-- The Python type of a non-array scalar value passed to `check_is_number`. -/
inductive PyNumType where
  | pyBool | pyInt | pyFloat | pyComplex
  | npBoolT | npInt32T | npInt64T | npFloat32T | npFloat64T | npComplex128T
deriving DecidableEq

/-- How Python prints the value's type in the failure message. -/
def PyNumType.typeRepr : PyNumType → String
  | .pyBool => "<class 'bool'>"
  | .pyInt => "<class 'int'>"
  | .pyFloat => "<class 'float'>"
  | .pyComplex => "<class 'complex'>"
  | .npBoolT => "<class 'numpy.bool_'>"
  | .npInt32T => "<class 'numpy.int32'>"
  | .npInt64T => "<class 'numpy.int64'>"
  | .npFloat32T => "<class 'numpy.float32'>"
  | .npFloat64T => "<class 'numpy.float64'>"
  | .npComplex128T => "<class 'numpy.complex128'>"

/-- `isinstance(x, numbers.Real)`: `bool` and `int` qualify through the
`numbers` tower (`bool` is a subclass of `int`), `float` directly, and the
NumPy integer/floating scalar types through NumPy's ABC registrations;
complex types and `np.bool_` do not. -/
def instAbcReal : PyNumType → Bool
  | .pyBool | .pyInt | .pyFloat => true
  | .npInt32T | .npInt64T | .npFloat32T | .npFloat64T => true
  | _ => false

/-- `isinstance(x, numbers.Number)`: `instAbcReal` plus the complex types. -/
def instAbcNumber : PyNumType → Bool
  | .pyComplex | .npComplex128T => true
  | t => instAbcReal t

/-- `isinstance(x, (float, int))`: built-in numeric types; `bool` qualifies
as a subclass of `int`, and `np.float64` as a subclass of `float`.  NumPy
integers and `np.bool_` are not subclasses of the built-ins. -/
def instBuiltinReal : PyNumType → Bool
  | .pyBool | .pyInt | .pyFloat | .npFloat64T => true
  | _ => false

/-- `isinstance(x, (float, int, complex))`: `instBuiltinReal` plus the
complex types (`np.complex128` is a subclass of `complex`). -/
def instBuiltinNumber : PyNumType → Bool
  | .pyComplex | .npComplex128T => true
  | t => instBuiltinReal t

/-- `isinstance(x, (np.floating, np.integer))`. -/
def instNumpyReal : PyNumType → Bool
  | .npInt32T | .npInt64T | .npFloat32T | .npFloat64T => true
  | _ => false

/-- `isinstance(x, np.number)`. -/
def instNumpyNumber : PyNumType → Bool
  | .npComplex128T => true
  | t => instNumpyReal t

/-- The `definition` argument of `check_is_number`. -/
inductive NumDef where
  | abstract | builtin | numpy
deriving DecidableEq

/-- Repr of the resolved `valid_type` as it appears in the failure message
of `check_is_instance`, together with whether it is a single class. -/
def validTypeRepr : NumDef → Bool → String × Bool
  | .abstract, true => ("<class 'numbers.Real'>", true)
  | .abstract, false => ("<class 'numbers.Number'>", true)
  | .builtin, true => ("(<class 'float'>, <class 'int'>)", false)
  | .builtin, false => ("(<class 'float'>, <class 'int'>, <class 'complex'>)", false)
  | .numpy, true => ("(<class 'numpy.floating'>, <class 'numpy.integer'>)", false)
  | .numpy, false => ("<class 'numpy.number'>", true)

/-- `check_is_number` (lines 662-777).  The `definition` string has already
been checked against `['abstract', 'builtin', 'numpy']` (modelled by the
`NumDef` enumeration, so that check always passes); the resolved
`valid_type` is handed to `check_is_instance(num, valid_type,
allow_subclass=True, name=name)`, whose failure message is rebuilt here. -/
def checkIsNumber (t : PyNumType) (dfn : NumDef) (mustBeReal : Bool)
    (name : String) : Except PyErr Unit :=
  let ok :=
    match dfn, mustBeReal with
    | .abstract, true => instAbcReal t
    | .abstract, false => instAbcNumber t
    | .builtin, true => instBuiltinReal t
    | .builtin, false => instBuiltinNumber t
    | .numpy, true => instNumpyReal t
    | .numpy, false => instNumpyNumber t
  if ok then .ok ()
  else
    let (cls, single) := validTypeRepr dfn mustBeReal
    let body := if single then "must be an instance of"
      else "must be an instance of any type"
    .error (.typeError s!"{name} {body} {cls}. Got {t.typeRepr} instead.")

/-- A Python scalar that can appear as a shape entry or as a bare shape:
an `int`, a `bool` (which is a subclass of `int`), or a `float`. -/
inductive PyScalar where
  | pint (n : Int)
  | pbool (b : Bool)
  | pfloat (q : ℚ)
deriving DecidableEq

/-- The numeric value used by Python `==` comparisons. -/
def PyScalar.toQ : PyScalar → ℚ
  | .pint n => (n : ℚ)
  | .pbool b => if b then 1 else 0
  | .pfloat q => q

/-- `isinstance(d, int)`: true for `int` and `bool`, false for `float`. -/
def PyScalar.isInstInt : PyScalar → Bool
  | .pint _ => true
  | .pbool _ => true
  | .pfloat _ => false

/-- `_is_valid_dim(d)` (lines 1320-1321): `isinstance(d, int) and d >= -1`. -/
def PyScalar.isValidDim (s : PyScalar) : Bool :=
  s.isInstInt && decide ((-1 : ℚ) ≤ s.toQ)

/-- How Python prints the scalar's type. -/
def PyScalar.typeRepr : PyScalar → String
  | .pint _ => "<class 'int'>"
  | .pbool _ => "<class 'bool'>"
  | .pfloat _ => "<class 'float'>"

/-- Python repr of the scalar.  A non-integral `pfloat` prints as a
fraction, abstracting Python's decimal float repr; no theorem below
depends on that case. -/
def PyScalar.pyRepr : PyScalar → String
  | .pint n => toString n
  | .pbool b => if b then "True" else "False"
  | .pfloat q => if q.den = 1 then s!"{q.num}.0" else toString q

/-- A shape-like argument: `None`, a bare scalar, a tuple, or a Python
list of scalars (a list is not a tuple and not an `int`). -/
inductive ShapeInput where
  | noneV
  | scalar (s : PyScalar)
  | tup (l : List PyScalar)
  | plist (l : List PyScalar)
deriving DecidableEq

/-- The general validation path of `_validate_shape_value` (lines
1308-1336 without the fast-path block at 1314-1318): reject `None`;
accept a valid bare dim as a 1-tuple and a tuple of valid dims as-is;
otherwise raise through `check_is_instance(shape, (int, tuple))`,
`check_is_iterable_of_some_type(shape, int)` (which fails at the first
non-`int` item) and `check_is_greater_than(shape, -1, strict=False)`. -/
def validateShapeGeneral : ShapeInput → Except PyErr (List PyScalar)
  | .noneV => .error (.typeError "`None` is not a valid shape. Use `()` instead.")
  | .scalar s =>
      if s.isValidDim then .ok [s]
      else
        match s with
        | .pfloat _ => .error (.typeError
            "Shape must be an instance of any type (<class 'int'>, <class 'tuple'>). Got <class 'float'> instead.")
        | _ => .error (.valueError
            "Shape values must all be greater than or equal to -1.")
  | .tup l =>
      if l.all PyScalar.isValidDim then .ok l
      else
        match l.find? (fun s => !s.isInstInt) with
        | some s => .error (.typeError
            s!"All items of Shape must be an instance of <class 'int'>. Got {s.typeRepr} instead.")
        | none => .error (.valueError
            "Shape values must all be greater than or equal to -1.")
  | .plist _ => .error (.typeError
      "Shape must be an instance of any type (<class 'int'>, <class 'tuple'>). Got <class 'list'> instead.")

/-- The literal shapes of the fast path (line 1317). -/
def fastLits : List (List Int) := [[-1], [1], [3], [2], [1, 3], [-1, 3]]

/-- Python `==` between a tuple and a literal int tuple: equal length and
pairwise numeric equality (so `(1.0, 3.0) == (1, 3)` and
`(True, 3) == (1, 3)`). -/
def tupEqIntLit (l : List PyScalar) (lit : List Int) : Bool :=
  decide (l.length = lit.length) &&
    (l.zip lit).all fun p => decide (p.1.toQ = (p.2 : ℚ))

/-- `_validate_shape_value` (lines 1306-1336), fast path included:
after the `None` check, `shape == ()` and `shape in [(-1,), (1,), (3,),
(2,), (1, 3), (-1, 3)]` return the input unvalidated; anything else goes
through the general path. -/
def validateShapeValue (sh : ShapeInput) : Except PyErr (List PyScalar) :=
  match sh with
  | .noneV => .error (.typeError "`None` is not a valid shape. Use `()` instead.")
  | .tup l =>
      if l = [] then .ok []
      else if fastLits.any (fun lit => tupEqIntLit l lit) then .ok l
      else validateShapeGeneral (.tup l)
  | s => validateShapeGeneral s

/-- `_shape_is_allowed(a, b)` (lines 635-641): equal length, and at each
position the concrete size equals the spec entry or the spec entry is -1. -/
def shapeIsAllowed (a : List Nat) (b : List PyScalar) : Bool :=
  decide (a.length = b.length) &&
    (a.zip b).all fun p =>
      decide ((p.1 : ℚ) = p.2.toQ) || decide (p.2.toQ = -1)

/-- The `shape` argument of `check_has_shape`: a single shape-like value
or a Python list of them. -/
inductive ShapeArg where
  | single (s : ShapeInput)
  | listOf (l : List ShapeInput)
deriving DecidableEq

/-- `if not isinstance(shape, list): shape = [shape]` (lines 645-646). -/
def ShapeArg.toList : ShapeArg → List ShapeInput
  | .single s => [s]
  | .listOf l => l

/-- Repr of a NumPy shape tuple, e.g. `(3, 3)`, `(2,)`, `()`. -/
def tupleReprNat (l : List Nat) : String :=
  match l with
  | [] => "()"
  | [n] => s!"({n},)"
  | _ => "(" ++ String.intercalate ", " (l.map toString) ++ ")"

/-- Python repr of a shape-like value as interpolated into messages. -/
def shapeInputRepr : ShapeInput → String
  | .noneV => "None"
  | .scalar s => s.pyRepr
  | .tup [] => "()"
  | .tup [s] => s!"({s.pyRepr},)"
  | .tup l => "(" ++ String.intercalate ", " (l.map PyScalar.pyRepr) ++ ")"
  | .plist l => "[" ++ String.intercalate ", " (l.map PyScalar.pyRepr) ++ "]"

/-- Python repr of the list of allowed shapes. -/
def shapeSpecListRepr (l : List ShapeInput) : String :=
  "[" ++ String.intercalate ", " (l.map shapeInputRepr) ++ "]"

/-- The no-match message of `check_has_shape` (lines 654-659). -/
def hasShapeFailMsg (name : String) (ash : List Nat) (specs : List ShapeInput) :
    String :=
  s!"{name} has shape {tupleReprNat ash} which is not allowed. " ++
    (if specs.length = 1 then s!"Shape must be {shapeInputRepr (specs.headD .noneV)}."
     else s!"Shape must be one of {shapeSpecListRepr specs}.")

/-- The `for input_shape in shape` loop of `check_has_shape` (lines
649-652): each candidate is validated lazily, and the loop returns as soon
as one matches; candidates after the first match are never validated. -/
def hasShapeLoop (ash : List Nat) : List ShapeInput → Except PyErr Bool
  | [] => .ok false
  | s :: rest =>
      match validateShapeValue s with
      | .error e => .error e
      | .ok v => if shapeIsAllowed ash v then .ok true else hasShapeLoop ash rest

/-- `check_has_shape` (lines 583-659), with the subject represented by its
shape (the function reads nothing else from the array). -/
def checkHasShape (ash : List Nat) (spec : ShapeArg) (name : String) :
    Except PyErr Unit :=
  match hasShapeLoop ash spec.toList with
  | .error e => .error e
  | .ok true => .ok ()
  | .ok false => .error (.valueError (hasShapeFailMsg name ash spec.toList))

/-- Whether a single (valid) candidate spec matches the array's shape:
the body of one iteration of the `check_has_shape` loop. -/
def specMatches (ash : List Nat) (s : ShapeInput) : Bool :=
  match validateShapeValue s with
  | .ok v => shapeIsAllowed ash v
  | .error _ => false

/-- Python/NumPy print of a numeric value interpolated into a message.
Integer-valued quantities (the only ones the theorems below rely on)
print as integers; a non-integral value prints as a fraction, abstracting
the decimal float repr. -/
def pyReprQ (q : ℚ) : String :=
  if q.den = 1 then toString q.num else toString q

/-- Flat NumPy `str()` of a data buffer, e.g. `[0 1 2]`. -/
def npStrFlat (l : List ℚ) : String :=
  "[" ++ String.intercalate " " (l.map pyReprQ) ++ "]"

/-- `str(arr)` as interpolated into the sorted-check message.  Faithful for
0-d and 1-d arrays; the multi-line layout of higher dimensions is
abstracted to the flat form (no theorem below prints such an array). -/
def npStr (a : NDArray) : String :=
  if a.shape.length = 0 then pyReprQ (a.data.getD 0 0) else npStrFlat a.data

/-- `check_is_greater_than` (lines 419-465) on the flattened element list:
`check_is_number(value)` and `check_is_real(value)` pass for every value
representable in the model, then `np.all(arr > value)` resp.
`np.all(arr >= value)` decides the outcome. -/
def checkIsGreaterThan (arr : List ℚ) (value : ℚ) (strict : Bool)
    (name : String) : Except PyErr Unit :=
  if strict && !(arr.all fun x => decide (value < x)) then
    .error (.valueError s!"{name} values must all be greater than {pyReprQ value}.")
  else if !(arr.all fun x => decide (value ≤ x)) then
    .error (.valueError
      s!"{name} values must all be greater than or equal to {pyReprQ value}.")
  else .ok ()

/-- `check_is_less_than` (lines 468-515), mirror of `checkIsGreaterThan`. -/
def checkIsLessThan (arr : List ℚ) (value : ℚ) (strict : Bool)
    (name : String) : Except PyErr Unit :=
  if strict && !(arr.all fun x => decide (x < value)) then
    .error (.valueError s!"{name} values must all be less than {pyReprQ value}.")
  else if !(arr.all fun x => decide (x ≤ value)) then
    .error (.valueError
      s!"{name} values must all be less than or equal to {pyReprQ value}.")
  else .ok ()

/-- All multi-indices of a shape, in row-major order. -/
def enumShape : List Nat → List (List Nat)
  | [] => [[]]
  | n :: rest => ((List.range n).map fun i => (enumShape rest).map (i :: ·)).flatten

/-- Row-major flat offset of a multi-index. -/
def flatIndex : List Nat → List Nat → Nat
  | _ :: rest, i :: irest => i * rest.prod + flatIndex rest irest
  | _, _ => 0

/-- The multi-index one step further along axis `ax`. -/
def bumpAt (idx : List Nat) (ax : Nat) : List Nat :=
  idx.set ax (idx.getD ax 0 + 1)

/-- The slicer comparison of `check_is_sorted` (lines 276-293):
`arr[..., :-1, ...] cmp arr[..., 1:, ...]` along axis `ax`, i.e. `cmp`
holds for every pair of consecutive elements along `ax`. -/
def isSortedAlong (a : NDArray) (ax : Nat) (cmp : ℚ → ℚ → Bool) : Bool :=
  (enumShape a.shape).all fun idx =>
    if idx.getD ax 0 + 1 < a.shape.getD ax 0 then
      cmp (a.data.getD (flatIndex a.shape idx) 0)
        (a.data.getD (flatIndex a.shape (bumpAt idx ax)) 0)
    else true

/-- The four comparison operators selected by `(ascending, strict)`. -/
def sortCmp (ascending strict : Bool) : ℚ → ℚ → Bool := fun x y =>
  match ascending, strict with
  | true, false => decide (x ≤ y)
  | true, true => decide (x < y)
  | false, false => decide (y ≤ x)
  | false, true => decide (y < x)

/-- The failure message of `check_is_sorted` (lines 294-302). -/
def sortedFailMsg (name : String) (a : NDArray) (ascending strict : Bool) :
    String :=
  let body := if a.size ≤ 4 then npStr a else s!"with {a.size} elements"
  let ordr := if ascending then "ascending" else "descending"
  let strictPart := if strict then "strict " else ""
  s!"{name} {body} must be sorted in {strictPart}{ordr} order."

/-- Comparison and raise of `check_is_sorted`, after the axis is resolved. -/
def sortedCore (a : NDArray) (ascending strict : Bool) (ax : Nat)
    (name : String) : Except PyErr Unit :=
  if isSortedAlong a ax (sortCmp ascending strict) then .ok ()
  else .error (.valueError (sortedFailMsg name a ascending strict))

/-- `arr.flatten()`. -/
def NDArray.flattened (a : NDArray) : NDArray :=
  ⟨a.dtype, [a.shape.prod], a.data⟩

/-- `check_is_sorted(arr, name=name)` at its default arguments
(`ascending=True, strict=False, axis=-1`): 0-d returns early; `axis == -1`
skips the axis validation and normalises to `ndim - 1`. -/
def checkIsSortedDefault (a : NDArray) (name : String) : Except PyErr Unit :=
  if a.shape.length = 0 then .ok ()
  else sortedCore a true false (a.shape.length - 1) name

/-- `check_is_in_range` (lines 518-580) with the subject flattened to its
element list: the bound pair is checked by `check_has_shape(rng_, 2,
name="Range")` and `check_is_sorted(rng_, name="Range")` before the subject
is compared by `check_is_greater_than`/`check_is_less_than`; the final
`try/except ValueError: raise` re-raises unchanged. -/
def checkIsInRange (arr : List ℚ) (rng : List ℚ)
    (strictLower strictUpper : Bool) (name : String) : Except PyErr Unit :=
  match checkHasShape [rng.length] (.single (.scalar (.pint 2))) "Range" with
  | .error e => .error e
  | .ok _ =>
    match checkIsSortedDefault ⟨.float64, [rng.length], rng⟩ "Range" with
    | .error e => .error e
    | .ok _ =>
      match checkIsGreaterThan arr (rng.getD 0 0) strictLower name with
      | .error e => .error e
      | .ok _ => checkIsLessThan arr (rng.getD 1 0) strictUpper name

/-- Dtypes on which `np.floor` is defined (it has no complex loop). -/
def floorSupported (d : DType) : Bool :=
  decide (d ≠ DType.complex128)

/-- NumPy's error when `np.floor` is applied to a complex array. -/
def floorUfuncMsg : String :=
  "ufunc 'floor' not supported for the input types, and the inputs could not be safely coerced to any supported types according to the casting rule ''safe''"

/-- `check_is_integerlike` (lines 338-381).  With `strict=True` the source
calls `check_is_subdtype(arr, np.integer)` WITHOUT forwarding `name`
(line 377), so the message uses the default "Input".  Otherwise
`np.array_equal(arr, np.floor(arr))` compares every element to its floor
(NumPy raises first when the dtype has no floor). -/
def checkIsIntegerlike (a : NDArray) (strict : Bool) (name : String) :
    Except PyErr Unit :=
  if strict then checkIsSubdtype a.dtype [.npInteger] "Input"
  else if floorSupported a.dtype then
    if a.data.all fun x => decide (x = (⌊x⌋ : ℚ)) then .ok ()
    else .error (.valueError s!"{name} must have integer-like values.")
  else .error (.typeError floorUfuncMsg)

/-- The `axis` argument of `check_is_sorted`: `None`, a Python `int`, or a
Python `float`. -/
inductive AxisArg where
  | noneA
  | intA (n : Int)
  | floatA (q : ℚ)
deriving DecidableEq

/-- The non-default-axis path of `check_is_sorted` (lines 263-274) once the
axis has been converted by `int(axis)`: `check_is_in_range(axis,
rng=[-arr.ndim, arr.ndim - 1], name="Axis")` with a `ValueError` re-raised
as the out-of-bounds message, then negative axes normalised. -/
def sortedIntAxis (a : NDArray) (ascending strict : Bool) (n : Int)
    (name : String) : Except PyErr Unit :=
  match checkIsInRange [(n : ℚ)]
      [-((a.shape.length : ℚ)), (a.shape.length : ℚ) - 1] false false "Axis" with
  | .error (.valueError _) =>
      .error (.valueError s!"Axis {n} is out of bounds for ndim {a.shape.length}.")
  | .error e => .error e
  | .ok _ =>
      sortedCore a ascending strict
        (if n < 0 then (n + a.shape.length).toNat else n.toNat) name

/-- `check_is_sorted` (lines 200-302).  A 0-d array returns before any axis
handling.  `axis=None` flattens.  An axis equal to -1 (also the float
`-1.0`, by numeric equality) skips the validation; a float `-1.0` then
survives to the list-indexing step `first[axis] = ...`, which raises
Python's TypeError for float list indices.  Any other axis passes
`check_is_number` (every int/float does), `check_is_integerlike` (rejecting
non-integral floats), `int()`, and the range check of `sortedIntAxis`. -/
def checkIsSorted (a : NDArray) (ascending strict : Bool) (axis : AxisArg)
    (name : String) : Except PyErr Unit :=
  if a.shape.length = 0 then .ok ()
  else
    match axis with
    | .noneA => sortedCore a.flattened ascending strict 0 name
    | .intA n =>
        if n = -1 then sortedCore a ascending strict (a.shape.length - 1) name
        else sortedIntAxis a ascending strict n name
    | .floatA q =>
        if q = -1 then
          .error (.typeError "list indices must be integers or slices, not float")
        else
          match checkIsIntegerlike ⟨.float64, [], [q]⟩ false "Axis" with
          | .error e => .error e
          | .ok _ => sortedIntAxis a ascending strict ⌊q⌋ name

/-- The `exact_length` block of `check_has_length` (lines 1271-1278):
validate that the lengths vector is integer-like, then test membership of
the subject's length. -/
def hasLengthExactStep (n : Nat) (exactLength : Option (List ℚ))
    (name : String) : Except PyErr Unit :=
  match exactLength with
  | none => .ok ()
  | some l =>
      match checkIsIntegerlike ⟨.float64, [l.length], l⟩ false "'exact_length'" with
      | .error e => .error e
      | .ok _ =>
          if (n : ℚ) ∈ l then .ok ()
          else .error (.valueError
            (s!"{name} must have a length equal to any of: {npStrFlat l}. " ++
              s!"Got length {n} instead."))

/-- The min/max self-validation of `check_has_length` (lines 1281-1290):
the scalar/real checks on each bound always pass for Python ints; when both
bounds are given they must be sorted. -/
def hasLengthSortStep (minLength maxLength : Option Int) : Except PyErr Unit :=
  match minLength, maxLength with
  | some m, some mx =>
      checkIsSortedDefault ⟨.float64, [2], [(m : ℚ), (mx : ℚ)]⟩ "Range"
  | _, _ => .ok ()

/-- The `min_length` comparison of `check_has_length` (lines 1292-1297). -/
def hasLengthMinStep (n : Nat) (minLength : Option Int) (name : String) :
    Except PyErr Unit :=
  match minLength with
  | some m =>
      if (n : Int) < m then
        .error (.valueError
          (s!"{name} must have a minimum length of {m}. " ++
            s!"Got length {n} instead."))
      else .ok ()
  | none => .ok ()

/-- The `max_length` comparison of `check_has_length` (lines 1298-1303). -/
def hasLengthMaxStep (n : Nat) (maxLength : Option Int) (name : String) :
    Except PyErr Unit :=
  match maxLength with
  | some mx =>
      if (n : Int) > mx then
        .error (.valueError
          (s!"{name} must have a maximum length of {mx}. " ++
            s!"Got length {n} instead."))
      else .ok ()
  | none => .ok ()

/-- `check_has_length` (lines 1184-1303) with the subject a 1-d sequence of
numbers (so `allow_scalar` reshaping, the `(Sequence, np.ndarray)` instance
check and the `must_be_1d` shape check are all no-ops that cannot raise),
`exact_length` already materialised as a vector, and `min_length`/
`max_length` Python ints (their scalar/real self-checks always pass). -/
def checkHasLength (arr : List ℚ) (exactLength : Option (List ℚ))
    (minLength maxLength : Option Int) (_mustBe1d _allowScalar : Bool)
    (name : String) : Except PyErr Unit :=
  match hasLengthExactStep arr.length exactLength name with
  | .error e => .error e
  | .ok _ =>
    match hasLengthSortStep minLength maxLength with
    | .error e => .error e
    | .ok _ =>
      match hasLengthMinStep arr.length minLength name with
      | .error e => .error e
      | .ok _ => hasLengthMaxStep arr.length maxLength name

/-! ## Claims -/

/-- C1, counterexample: the claim states that every boolean-like value is
rejected under every definition, but Python's built-in `True` is accepted
by `check_is_number` under the default abstract definition, because `bool`
is a subclass of `int` and therefore an instance of `numbers.Real`. -/
theorem claim1_counterexample :
    checkIsNumber PyNumType.pyBool NumDef.abstract true "Object" = Except.ok () := rfl

/-- C1, amended: `check_is_number` raises a TypeError on `np.bool_` input
under every definition and either value of `must_be_real`; built-in `bool`
is rejected under the numpy definition only, and accepted (as a subclass
of `int`) under the abstract and builtin definitions. -/
theorem claim1_theorem :
    ∀ (d : NumDef) (r : Bool) (name : String),
      isTypeErr (checkIsNumber PyNumType.npBoolT d r name) = true ∧
      isTypeErr (checkIsNumber PyNumType.pyBool NumDef.numpy r name) = true ∧
      checkIsNumber PyNumType.pyBool NumDef.abstract r name = Except.ok () ∧
      checkIsNumber PyNumType.pyBool NumDef.builtin r name = Except.ok () := by
  intro d r name
  refine ⟨?_, ?_, ?_, ?_⟩ <;> cases d <;> cases r <;> rfl

/-- C2: the shape fast path diverges from the general validation path on
the float tuple `(1.0, 3.0)`: Python's `in`/`==` compare numerically, so
the fast path returns the tuple unvalidated, while the general path
rejects it because its items are not `int` instances. -/
theorem claim2_bug_theorem :
    validateShapeValue (ShapeInput.tup [.pfloat 1, .pfloat 3])
        = Except.ok [PyScalar.pfloat 1, PyScalar.pfloat 3] ∧
    validateShapeGeneral (ShapeInput.tup [.pfloat 1, .pfloat 3])
        = Except.error (.typeError
            "All items of Shape must be an instance of <class 'int'>. Got <class 'float'> instead.") := by
  constructor <;> rfl

/-- C9: `check_is_integerlike` with `strict=True` does not forward the
caller-supplied name to `check_is_subdtype` (line 377), so the failure
message is prefixed by the default "Input" rather than the caller's
"MyArr"; the outcome is exactly the subdtype check at name "Input". -/
theorem claim9_bug_theorem :
    checkIsIntegerlike ⟨DType.float64, [1], [3/2]⟩ true "MyArr"
        = Except.error (.typeError
            "Input has incorrect dtype of 'float64'. The dtype must be a subtype of <class 'numpy.integer'>.") ∧
    checkIsIntegerlike ⟨DType.float64, [1], [3/2]⟩ true "MyArr"
        = checkIsSubdtype DType.float64 [NpBase.npInteger] "Input" := by
  constructor <;> rfl

/-- C10: `check_is_sorted` returns successfully on every 0-dimensional
array before any axis handling, for every value of the axis argument;
the same out-of-range integer axis and non-integral float axis raise on
a 1-dimensional array. -/
theorem claim10_theorem :
    (∀ (a : NDArray) (ascending strict : Bool) (axis : AxisArg) (name : String),
        a.shape = [] → checkIsSorted a ascending strict axis name = Except.ok ()) ∧
    checkIsSorted ⟨DType.float64, [2], [1, 2]⟩ true false (.intA 5) "Array"
        = Except.error (.valueError "Axis 5 is out of bounds for ndim 1.") ∧
    checkIsSorted ⟨DType.float64, [2], [1, 2]⟩ true false (.floatA (7/2)) "Array"
        = Except.error (.valueError "Axis must have integer-like values.") := by
  refine ⟨?_, by with_unfolding_all rfl, by with_unfolding_all rfl⟩
  intro a ascending strict axis name h
  simp [checkIsSorted, h]

/-- C10, witness: a 0-d array passes with a non-integral float axis that
would raise for any array of dimensionality one or more. -/
theorem claim10_witness :
    checkIsSorted ⟨DType.float64, [], [5]⟩ true true (.floatA (7/2)) "Array"
      = Except.ok () :=
  claim10_theorem.1 _ true true _ "Array" rfl

/-- Elementwise condition of `_shape_is_allowed` on an integer spec entry. -/
theorem shapeEntry_pint_iff (m : Nat) (n : Int) :
    (decide ((m : ℚ) = (PyScalar.pint n).toQ) || decide ((PyScalar.pint n).toQ = -1)) = true
      ↔ ((m : Int) = n ∨ n = -1) := by
  simp only [PyScalar.toQ, Bool.or_eq_true, decide_eq_true_eq]
  constructor
  · rintro (h | h)
    · left; exact_mod_cast h
    · right; exact_mod_cast h
  · rintro (h | h)
    · left; exact_mod_cast h
    · right; exact_mod_cast h

/-- Characterisation of `_shape_is_allowed` against an integer spec. -/
theorem shapeIsAllowed_pint_iff (s : List Nat) (w : List Int) :
    shapeIsAllowed s (w.map PyScalar.pint) = true ↔
      (s.length = w.length ∧ ∀ p ∈ s.zip w, ((p.1 : Int) = p.2 ∨ p.2 = -1)) := by
  have hlen : (w.map PyScalar.pint).length = w.length := List.length_map _ _
  unfold shapeIsAllowed
  rw [List.zip_map_right]
  simp only [Bool.and_eq_true, decide_eq_true_eq, hlen, List.all_eq_true,
    List.mem_map, forall_exists_index, and_imp]
  constructor
  · rintro ⟨h1, h2⟩
    refine ⟨h1, fun p hp => ?_⟩
    have := h2 _ p hp rfl
    simpa using (shapeEntry_pint_iff p.1 p.2).mp (by simpa [Prod.map] using this)
  · rintro ⟨h1, h2⟩
    refine ⟨h1, fun q p hp hq => ?_⟩
    subst hq
    have := (shapeEntry_pint_iff p.1 p.2).mpr (h2 p hp)
    simpa [Prod.map] using this

/-- C5: for a concrete shape `s` and a normalized wildcard spec `w`, the
shape matcher accepts iff the lengths agree and every position is equal or
the spec entry is -1; differing lengths never match. -/
theorem claim5_theorem :
    ∀ (s : List Nat) (w : List Int),
      (shapeIsAllowed s (w.map PyScalar.pint) = true ↔
        (s.length = w.length ∧ ∀ p ∈ s.zip w, ((p.1 : Int) = p.2 ∨ p.2 = -1))) ∧
      (s.length ≠ w.length → shapeIsAllowed s (w.map PyScalar.pint) = false) := by
  intro s w
  refine ⟨shapeIsAllowed_pint_iff s w, fun hne => ?_⟩
  rw [Bool.eq_false_iff]
  intro hT
  exact hne ((shapeIsAllowed_pint_iff s w).mp hT).1

/-- C5, witness: the empty spec never matches a nonempty shape. -/
theorem claim5_witness :
    shapeIsAllowed [2] (([] : List Int).map PyScalar.pint) = false :=
  (claim5_theorem [2] []).2 (by decide)

/-- C7: with `strict=False`, `check_is_integerlike` accepts exactly the
arrays whose dtype supports `np.floor` and whose every element equals its
own floor; with `strict=True` it is exactly the dtype-subtype check
against `np.integer` (so it accepts iff the dtype is an integer subtype,
and rejects every floating dtype regardless of the element values). -/
theorem claim7_theorem :
    ∀ (a : NDArray) (name : String),
      (checkIsIntegerlike a false name = Except.ok () ↔
        (floorSupported a.dtype = true ∧ ∀ x ∈ a.data, x = (⌊x⌋ : ℚ))) ∧
      (checkIsIntegerlike a true name = checkIsSubdtype a.dtype [.npInteger] "Input") ∧
      (checkIsIntegerlike a true name = Except.ok () ↔
        issubdtype a.dtype .npInteger = true) ∧
      (issubdtype a.dtype .npFloating = true →
        isTypeErr (checkIsIntegerlike a true name) = true) := by
  intro a name
  obtain ⟨dt, sh, data⟩ := a
  refine ⟨?_, rfl, ?_, ?_⟩
  · cases hf : floorSupported dt with
    | false => simp [checkIsIntegerlike, hf]
    | true =>
        cases hd : data.all (fun x => decide (x = (⌊x⌋ : ℚ))) with
        | false =>
            have hne : ¬ ∀ x ∈ data, x = (⌊x⌋ : ℚ) := by
              simp only [List.all_eq_false, decide_eq_true_eq] at hd
              obtain ⟨x, hx, hxf⟩ := hd
              intro hall
              exact hxf (hall x hx)
            simp [checkIsIntegerlike, hf, hd, hne]
        | true =>
            simp only [List.all_eq_true, decide_eq_true_eq] at hd
            simp [checkIsIntegerlike, hf, hd]
  · cases hsub : issubdtype dt .npInteger <;>
      simp [checkIsIntegerlike, checkIsSubdtype, hsub]
  · intro h
    cases dt <;> first | rfl | simp [issubdtype] at h

/-- C7, witness: `[1.0, 2.0, -3.0]` is accepted non-strictly, `[1.5]` is
rejected non-strictly, and a float32 array of integral values is rejected
with `strict=True`. -/
theorem claim7_witness :
    checkIsIntegerlike ⟨DType.float64, [3], [1, 2, -3]⟩ false "Array" = Except.ok () ∧
    checkIsIntegerlike ⟨DType.float64, [1], [3/2]⟩ false "Array" ≠ Except.ok () ∧
    isTypeErr (checkIsIntegerlike ⟨DType.float32, [1], [1]⟩ true "Array") = true := by
  refine ⟨?_, ?_, ?_⟩
  · exact ((claim7_theorem ⟨.float64, [3], [1, 2, -3]⟩ "Array").1).mpr
      ⟨rfl, by with_unfolding_all decide⟩
  · intro h
    have hc := ((claim7_theorem ⟨.float64, [1], [3/2]⟩ "Array").1).mp h
    revert hc
    with_unfolding_all decide
  · exact (claim7_theorem ⟨.float32, [1], [1]⟩ "Array").2.2.2 (by decide)

/-- Evaluation of the default sorted check on a two-element vector. -/
theorem sortedDefault_pair (lo hi : ℚ) (nm : String) :
    checkIsSortedDefault ⟨.float64, [2], [lo, hi]⟩ nm =
      if lo ≤ hi then .ok ()
      else .error (.valueError (sortedFailMsg nm ⟨.float64, [2], [lo, hi]⟩ true false)) := by
  have key : isSortedAlong ⟨.float64, [2], [lo, hi]⟩ 0 (sortCmp true false)
      = decide (lo ≤ hi) := by
    show (decide (lo ≤ hi) && (true && true)) = decide (lo ≤ hi)
    simp
  by_cases h : lo ≤ hi
  · simp [checkIsSortedDefault, sortedCore, key, h]
  · simp [checkIsSortedDefault, sortedCore, key, h]

/-- `check_is_in_range` with a sorted two-element bound vector reduces to
the two bound comparisons. -/
theorem inRange_eval (arr : List ℚ) (lo hi : ℚ) (sl su : Bool) (nm : String)
    (h : lo ≤ hi) :
    checkIsInRange arr [lo, hi] sl su nm =
      match checkIsGreaterThan arr lo sl nm with
      | .error e => .error e
      | .ok _ => checkIsLessThan arr hi su nm := by
  have hshape : checkHasShape [2] (.single (.scalar (.pint 2))) "Range"
      = .ok () := rfl
  simp only [checkIsInRange, show ([lo, hi] : List ℚ).length = 2 from rfl, hshape,
    sortedDefault_pair, if_pos h]
  rfl

/-- C4, counterexample: `check_is_sorted` catches the ValueError raised by
its sub-check `check_is_in_range` on an out-of-range axis and re-raises it
with a different message, so it is not true that every check other than
the numeric/real pair propagates sub-check failures unchanged. -/
theorem claim4_counterexample :
    checkIsSorted ⟨DType.int64, [3], [1, 2, 3]⟩ true false (.intA 5) "Array"
        = Except.error (.valueError "Axis 5 is out of bounds for ndim 1.") ∧
    checkIsInRange [(5 : ℚ)] [-1, 0] false false "Axis"
        = Except.error (.valueError "Axis values must all be less than or equal to 0.") ∧
    PyErr.valueError "Axis 5 is out of bounds for ndim 1."
      ≠ PyErr.valueError "Axis values must all be less than or equal to 0." := by
  refine ⟨by with_unfolding_all rfl, by with_unfolding_all rfl, by decide⟩

/-- C4, amended: the numeric/real array checks re-raise a dtype-subtype
failure with exactly the simplified messages; additionally `check_is_sorted`
re-raises an out-of-range axis failure from `check_is_in_range` as
"Axis {axis} is out of bounds for ndim {ndim}." (other catch-and-reraise
sites re-raise verbatim, which the `Except` embedding renders as identity). -/
theorem claim4_theorem :
    ∀ (a : NDArray) (name : String) (ascending strict : Bool) (n : Int),
      (checkIsNumeric a name =
        if issubdtype a.dtype .npNumber then Except.ok ()
        else Except.error (.typeError s!"{name} must be numeric.")) ∧
      (checkIsReal a name =
        if issubdtype a.dtype .npFloating || issubdtype a.dtype .npInteger
        then Except.ok ()
        else Except.error (.typeError s!"{name} must have real numbers.")) ∧
      (1 ≤ a.shape.length → n ≠ -1 →
        (n < -((a.shape.length : Int)) ∨ (a.shape.length : Int) - 1 < n) →
        checkIsSorted a ascending strict (.intA n) name =
          Except.error
            (.valueError s!"Axis {n} is out of bounds for ndim {a.shape.length}.")) := by
  intro a name ascending strict n
  refine ⟨?_, ?_, ?_⟩
  · obtain ⟨dt, sh, data⟩ := a
    cases dt <;> rfl
  · obtain ⟨dt, sh, data⟩ := a
    cases dt <;> rfl
  · intro h1 h2 h3
    have hlen0 : ¬ (a.shape.length = 0) := by omega
    have hle : -((a.shape.length : ℚ)) ≤ (a.shape.length : ℚ) - 1 := by
      have hq : (1 : ℚ) ≤ (a.shape.length : ℚ) := by exact_mod_cast h1
      linarith
    simp only [checkIsSorted, if_neg hlen0, if_neg h2]
    unfold sortedIntAxis
    rw [inRange_eval _ _ _ _ _ _ hle]
    rcases h3 with h3 | h3
    · have hg : ¬ (-((a.shape.length : ℚ)) ≤ (n : ℚ)) := by
        exact_mod_cast not_le.mpr (by exact_mod_cast h3)
      simp [checkIsGreaterThan, hg]
    · have hlt : ((a.shape.length : ℚ)) - 1 < (n : ℚ) := by
        exact_mod_cast h3
      have hg : -((a.shape.length : ℚ)) ≤ (n : ℚ) := le_of_lt (lt_of_le_of_lt hle hlt)
      have hl : ¬ ((n : ℚ) ≤ ((a.shape.length : ℚ)) - 1) := not_le.mpr hlt
      simp [checkIsGreaterThan, checkIsLessThan, hg, hl]

/-- C4, witness: a non-numeric dtype surfaces the simplified message, and
an out-of-range negative axis surfaces the re-classified axis message. -/
theorem claim4_witness :
    checkIsNumeric ⟨DType.bool_, [2], [0, 1]⟩ "Mask"
        = Except.error (.typeError "Mask must be numeric.") ∧
    checkIsSorted ⟨DType.float64, [2], [1, 2]⟩ false true (.intA (-7)) "Arr"
        = Except.error (.valueError "Axis -7 is out of bounds for ndim 1.") := by
  constructor
  · have h := (claim4_theorem ⟨.bool_, [2], [0, 1]⟩ "Mask" true false 0).1
    simpa using h
  · have h := (claim4_theorem ⟨.float64, [2], [1, 2]⟩ "Arr" false true (-7)).2.2
      (by decide) (by decide) (by decide)
    simpa using h

/-- Non-strict lower-bound comparison: success condition. -/
theorem greaterThan_nonstrict_iff (arr : List ℚ) (v : ℚ) (nm : String) :
    checkIsGreaterThan arr v false nm = Except.ok () ↔ ∀ x ∈ arr, v ≤ x := by
  cases h : arr.all (fun x => decide (v ≤ x)) with
  | true =>
      simp only [List.all_eq_true, decide_eq_true_eq] at h
      simp [checkIsGreaterThan, List.all_eq_true, h]
  | false =>
      have hne : ¬ ∀ x ∈ arr, v ≤ x := by
        simp only [List.all_eq_false, decide_eq_true_eq] at h
        obtain ⟨x, hx, hxv⟩ := h
        intro hall
        exact hxv (hall x hx)
      simp [checkIsGreaterThan, h, hne]

/-- Non-strict lower-bound comparison: failure outcome and message. -/
theorem greaterThan_nonstrict_err (arr : List ℚ) (v : ℚ) (nm : String)
    (h : ¬ ∀ x ∈ arr, v ≤ x) :
    checkIsGreaterThan arr v false nm =
      Except.error (.valueError
        s!"{nm} values must all be greater than or equal to {pyReprQ v}.") := by
  have hb : arr.all (fun x => decide (v ≤ x)) = false := by
    push_neg at h
    obtain ⟨x, hx, hxv⟩ := h
    rw [List.all_eq_false]
    exact ⟨x, hx, by simpa using not_le.mpr hxv⟩
  simp [checkIsGreaterThan, hb]

/-- Non-strict upper-bound comparison: success condition. -/
theorem lessThan_nonstrict_iff (arr : List ℚ) (v : ℚ) (nm : String) :
    checkIsLessThan arr v false nm = Except.ok () ↔ ∀ x ∈ arr, x ≤ v := by
  cases h : arr.all (fun x => decide (x ≤ v)) with
  | true =>
      simp only [List.all_eq_true, decide_eq_true_eq] at h
      simp [checkIsLessThan, List.all_eq_true, h]
  | false =>
      have hne : ¬ ∀ x ∈ arr, x ≤ v := by
        simp only [List.all_eq_false, decide_eq_true_eq] at h
        obtain ⟨x, hx, hxv⟩ := h
        intro hall
        exact hxv (hall x hx)
      simp [checkIsLessThan, h, hne]

/-- Non-strict upper-bound comparison: failure outcome and message. -/
theorem lessThan_nonstrict_err (arr : List ℚ) (v : ℚ) (nm : String)
    (h : ¬ ∀ x ∈ arr, x ≤ v) :
    checkIsLessThan arr v false nm =
      Except.error (.valueError
        s!"{nm} values must all be less than or equal to {pyReprQ v}.") := by
  have hb : arr.all (fun x => decide (x ≤ v)) = false := by
    push_neg at h
    obtain ⟨x, hx, hxv⟩ := h
    rw [List.all_eq_false]
    exact ⟨x, hx, by simpa using not_le.mpr hxv⟩
  simp [checkIsLessThan, hb]

/-- Evaluation of `check_has_shape` on a single already-valid spec. -/
theorem checkHasShape_single_eval (ash : List Nat) (s : ShapeInput)
    (v : List PyScalar) (nm : String) (hv : validateShapeValue s = .ok v) :
    checkHasShape ash (.single s) nm =
      if shapeIsAllowed ash v then .ok ()
      else .error (.valueError (hasShapeFailMsg nm ash [s])) := by
  by_cases h : shapeIsAllowed ash v = true
  · simp [checkHasShape, ShapeArg.toList, hasShapeLoop, hv, h]
  · simp [checkHasShape, ShapeArg.toList, hasShapeLoop, hv, h]

/-- C6: `check_is_in_range` validates the bound pair (length 2, sorted
non-strictly ascending) before the subject is compared — a bad bound pair
raises the Range shape/sort message whatever the subject is — then runs the
two bound comparisons independently, each surfacing its own message; with
`lo = hi` and the default non-strict bounds it accepts exactly the arrays
whose every element equals `lo`. -/
theorem claim6_theorem :
    ∀ (arr rng : List ℚ) (sl su : Bool) (name : String) (lo hi : ℚ),
      (rng.length ≠ 2 →
        checkIsInRange arr rng sl su name =
          Except.error (.valueError
            (hasShapeFailMsg "Range" [rng.length] [.scalar (.pint 2)]))) ∧
      (hi < lo →
        checkIsInRange arr [lo, hi] sl su name =
          Except.error (.valueError
            (sortedFailMsg "Range" ⟨.float64, [2], [lo, hi]⟩ true false))) ∧
      (checkIsInRange arr [lo, lo] false false name = Except.ok () ↔
        ∀ x ∈ arr, x = lo) ∧
      (lo ≤ hi → (∃ x ∈ arr, x < lo) →
        checkIsInRange arr [lo, hi] false su name =
          Except.error (.valueError
            s!"{name} values must all be greater than or equal to {pyReprQ lo}.")) ∧
      (lo ≤ hi → (∀ x ∈ arr, lo ≤ x) → (∃ x ∈ arr, hi < x) →
        checkIsInRange arr [lo, hi] false false name =
          Except.error (.valueError
            s!"{name} values must all be less than or equal to {pyReprQ hi}.")) := by
  intro arr rng sl su name lo hi
  refine ⟨?_, ?_, ?_, ?_, ?_⟩
  · intro hne
    have hval : validateShapeValue (.scalar (.pint 2)) = .ok [.pint 2] := by
      with_unfolding_all rfl
    have hfalse : shapeIsAllowed [rng.length] [PyScalar.pint 2] = false := by
      rw [Bool.eq_false_iff]
      intro hT
      rw [show [PyScalar.pint 2] = ([2] : List Int).map PyScalar.pint from rfl,
        shapeIsAllowed_pint_iff] at hT
      obtain ⟨-, hall⟩ := hT
      have hm : ((rng.length : Nat), (2 : Int)) ∈ [rng.length].zip [(2 : Int)] := by
        simp
      rcases hall _ hm with h' | h'
      · exact hne (by exact_mod_cast show ((rng.length : Nat) : Int) = 2 from h')
      · exact absurd (show (2 : Int) = -1 from h') (by decide)
    simp only [checkIsInRange]
    rw [checkHasShape_single_eval _ _ _ _ hval, if_neg (by simp [hfalse])]
  · intro hlt
    simp only [checkIsInRange, show ([lo, hi] : List ℚ).length = 2 from rfl]
    rw [show checkHasShape [2] (.single (.scalar (.pint 2))) "Range" = .ok ()
        from by with_unfolding_all rfl]
    rw [sortedDefault_pair, if_neg (not_le.mpr hlt)]
  · rw [inRange_eval arr lo lo false false name (le_refl lo)]
    constructor
    · intro h
      by_cases hg : ∀ x ∈ arr, lo ≤ x
      · rw [(greaterThan_nonstrict_iff arr lo name).mpr hg] at h
        intro x hx
        exact le_antisymm ((lessThan_nonstrict_iff arr lo name).mp h x hx) (hg x hx)
      · rw [greaterThan_nonstrict_err arr lo name hg] at h
        exact absurd h (by simp)
    · intro hall
      rw [(greaterThan_nonstrict_iff arr lo name).mpr
        (fun x hx => le_of_eq (hall x hx).symm)]
      exact (lessThan_nonstrict_iff arr lo name).mpr
        (fun x hx => le_of_eq (hall x hx))
  · intro hle hex
    rw [inRange_eval _ _ _ _ _ _ hle]
    have hg : ¬ ∀ x ∈ arr, lo ≤ x := by
      obtain ⟨x, hx, hxlt⟩ := hex
      intro hall
      exact absurd (hall x hx) (not_le.mpr hxlt)
    rw [greaterThan_nonstrict_err arr lo name hg]
  · intro hle hall hex
    rw [inRange_eval _ _ _ _ _ _ hle,
      (greaterThan_nonstrict_iff arr lo name).mpr hall]
    have hl : ¬ ∀ x ∈ arr, x ≤ hi := by
      obtain ⟨x, hx, hxlt⟩ := hex
      intro h2
      exact absurd (h2 x hx) (not_le.mpr hxlt)
    exact lessThan_nonstrict_err arr hi name hl

/-- C6, witness: a length-3 bound vector raises the Range shape message
before the subject is compared, and with bounds `[1, 1]` an array is
accepted iff every element equals 1. -/
theorem claim6_witness :
    checkIsInRange [(5 : ℚ)] [1, 2, 3] false false "Array"
        = Except.error (.valueError
            (hasShapeFailMsg "Range" [3] [.scalar (.pint 2)])) ∧
    ((checkIsInRange [(1 : ℚ), 1] [1, 1] false false "Array" = Except.ok ()) ↔
      ∀ x ∈ [(1 : ℚ), 1], x = 1) := by
  constructor
  · exact (claim6_theorem [5] [1, 2, 3] false false "Array" 0 0).1 (by decide)
  · exact (claim6_theorem [1, 1] [] false false "Array" 1 0).2.2.1

/-- C8: `check_has_length` with `exact_length` a collection (of
integer-valued lengths) succeeds iff the subject's length is a member of
the collection; with `min_length=m` it fails for every subject shorter
than `m`, with a message citing the actual length. -/
theorem claim8_theorem :
    ∀ (arr : List ℚ) (l : List ℚ) (m : Int) (name : String),
      ((∀ x ∈ l, x = (⌊x⌋ : ℚ)) →
        (checkHasLength arr (some l) none none false false name = Except.ok () ↔
          (arr.length : ℚ) ∈ l)) ∧
      ((arr.length : Int) < m →
        checkHasLength arr none (some m) none false false name =
          Except.error (.valueError
            (s!"{name} must have a minimum length of {m}. " ++
              s!"Got length {arr.length} instead."))) := by
  intro arr l m name
  constructor
  · intro hint
    have hall : l.all (fun x => decide (x = (⌊x⌋ : ℚ))) = true := by
      simp only [List.all_eq_true, decide_eq_true_eq]
      exact hint
    have hil : checkIsIntegerlike ⟨.float64, [l.length], l⟩ false "'exact_length'"
        = .ok () := by
      simp [checkIsIntegerlike, floorSupported, hall]
    have hex : hasLengthExactStep arr.length (some l) name =
        (if (arr.length : ℚ) ∈ l then Except.ok ()
         else Except.error (.valueError
           (s!"{name} must have a length equal to any of: {npStrFlat l}. " ++
             s!"Got length {arr.length} instead."))) := by
      simp only [hasLengthExactStep, hil]
    by_cases hm : (arr.length : ℚ) ∈ l
    · rw [if_pos hm] at hex
      simp [checkHasLength, hex, hasLengthSortStep, hasLengthMinStep,
        hasLengthMaxStep, hm]
    · rw [if_neg hm] at hex
      simp [checkHasLength, hex, hm]
  · intro hlt
    have hmin : hasLengthMinStep arr.length (some m) name =
        Except.error (.valueError
          (s!"{name} must have a minimum length of {m}. " ++
            s!"Got length {arr.length} instead.")) := by
      simp only [hasLengthMinStep, if_pos hlt]
    simp [checkHasLength, hasLengthExactStep, hasLengthSortStep, hmin]

/-- C8, witness: `[1,2,3]` with `exact_length=[2,3]` passes (3 is a
member), and `[1,2]` with `min_length=3` fails citing length 2. -/
theorem claim8_witness :
    checkHasLength [1, 2, 3] (some [2, 3]) none none false false "Array"
        = Except.ok () ∧
    checkHasLength [1, 2] none (some 3) none false false "Array"
        = Except.error (.valueError
            "Array must have a minimum length of 3. Got length 2 instead.") := by
  constructor
  · exact ((claim8_theorem [1, 2, 3] [2, 3] 0 "Array").1
      (by with_unfolding_all decide)).mpr (by with_unfolding_all decide)
  · exact (claim8_theorem [1, 2] [] 3 "Array").2 (by decide)

/-- The `check_has_shape` loop on a list of valid specs returns whether
some spec matches; nothing after the first match is ever examined. -/
theorem hasShapeLoop_allValid (ash : List Nat) :
    ∀ (specs : List ShapeInput),
      (∀ s ∈ specs, isOkE (validateShapeValue s) = true) →
      hasShapeLoop ash specs = .ok (specs.any fun s => specMatches ash s) := by
  intro specs
  induction specs with
  | nil => intro _; rfl
  | cons s rest ih =>
      intro h
      have hs := h s (by simp)
      cases hv : validateShapeValue s with
      | error e => rw [hv] at hs; simp [isOkE] at hs
      | ok v =>
          by_cases hm : shapeIsAllowed ash v = true
          · simp [hasShapeLoop, hv, hm, specMatches, List.any_cons]
          · have hrec := ih (fun t ht => h t (by simp [ht]))
            simp [hasShapeLoop, hv, hm, specMatches, List.any_cons, hrec]

/-- Success condition of `check_has_shape` with a list of valid specs. -/
theorem checkHasShape_list_ok_iff (ash : List Nat) (specs : List ShapeInput)
    (name : String) (h : ∀ s ∈ specs, isOkE (validateShapeValue s) = true) :
    checkHasShape ash (.listOf specs) name = Except.ok () ↔
      (specs.any fun s => specMatches ash s) = true := by
  simp only [checkHasShape, ShapeArg.toList, hasShapeLoop_allValid ash specs h]
  cases hany : specs.any fun s => specMatches ash s <;> simp

/-- Success condition of `check_has_shape` with a single valid spec. -/
theorem checkHasShape_single_ok_iff (ash : List Nat) (s : ShapeInput)
    (name : String) (h : isOkE (validateShapeValue s) = true) :
    checkHasShape ash (.single s) name = Except.ok () ↔
      specMatches ash s = true := by
  have heq : checkHasShape ash (.single s) name
      = checkHasShape ash (.listOf [s]) name := rfl
  rw [heq, checkHasShape_list_ok_iff ash [s] name (by simpa using h)]
  simp

/-- C3, counterexample: with array shape (3, 3), the spec list
`[(3, 3), (-2,)]` passes (the invalid second spec is never validated), but
its permutation `[(-2,), (3, 3)]` raises, although the first spec alone
passes — so permuting the list can change whether the check passes, and
the check can fail although one entry alone would succeed. -/
theorem claim3_counterexample :
    checkHasShape [3, 3] (.listOf [.tup [.pint 3, .pint 3], .tup [.pint (-2)]]) "Array"
        = Except.ok () ∧
    checkHasShape [3, 3] (.listOf [.tup [.pint (-2)], .tup [.pint 3, .pint 3]]) "Array"
        = Except.error (.valueError
            "Shape values must all be greater than or equal to -1.") ∧
    checkHasShape [3, 3] (.single (.tup [.pint 3, .pint 3])) "Array"
        = Except.ok () := by
  refine ⟨by with_unfolding_all rfl, by with_unfolding_all rfl,
    by with_unfolding_all rfl⟩

/-- C3, amended: when every entry of the spec list is itself a valid shape
spec, `check_has_shape` succeeds iff it would succeed on at least one
entry taken alone, and permuting the list never changes whether the check
passes (the caller-supplied name affects only messages); with an invalid
entry, validation is lazy and order matters. -/
theorem claim3_theorem :
    ∀ (ash : List Nat) (specs specs' : List ShapeInput) (name name' : String),
      (∀ s ∈ specs, isOkE (validateShapeValue s) = true) →
      specs.Perm specs' →
      ((checkHasShape ash (.listOf specs) name = Except.ok ()) ↔
        ∃ s ∈ specs, checkHasShape ash (.single s) name' = Except.ok ()) ∧
      ((checkHasShape ash (.listOf specs) name = Except.ok ()) ↔
        (checkHasShape ash (.listOf specs') name' = Except.ok ())) := by
  intro ash specs specs' name name' hval hperm
  have hval' : ∀ s ∈ specs', isOkE (validateShapeValue s) = true :=
    fun s hs => hval s (hperm.mem_iff.mpr hs)
  have key : ∀ (lst : List ShapeInput) (nm : String),
      (∀ s ∈ lst, isOkE (validateShapeValue s) = true) →
      ((checkHasShape ash (.listOf lst) nm = Except.ok ()) ↔
        ∃ s ∈ lst, specMatches ash s = true) := by
    intro lst nm hv
    rw [checkHasShape_list_ok_iff ash lst nm hv, List.any_eq_true]
  constructor
  · rw [key specs name hval]
    constructor
    · rintro ⟨s, hs, hm⟩
      exact ⟨s, hs, (checkHasShape_single_ok_iff ash s name' (hval s hs)).mpr hm⟩
    · rintro ⟨s, hs, hm⟩
      exact ⟨s, hs, (checkHasShape_single_ok_iff ash s name' (hval s hs)).mp hm⟩
  · rw [key specs name hval, key specs' name' hval']
    constructor
    · rintro ⟨s, hs, hm⟩
      exact ⟨s, hperm.mem_iff.mp hs, hm⟩
    · rintro ⟨s, hs, hm⟩
      exact ⟨s, hperm.mem_iff.mpr hs, hm⟩

/-- C3, witness: for two valid 2-d specs, swapping the list (and even the
name) leaves acceptance unchanged. -/
theorem claim3_witness :
    (checkHasShape [3, 3]
        (.listOf [ShapeInput.tup [.pint 3, .pint 3], .tup [.pint 4, .pint 4]])
        "Array" = Except.ok ()) ↔
      (checkHasShape [3, 3]
        (.listOf [ShapeInput.tup [.pint 4, .pint 4], .tup [.pint 3, .pint 3]])
        "Other" = Except.ok ()) :=
  (claim3_theorem [3, 3] _ _ "Array" "Other"
    (by with_unfolding_all decide) (by decide)).2
